import Mathlib

/-!
Verification of the action execution framework of the EveIntel chrome
extension, embedded shallowly from
`src/chrome-extension/src/background/agent/actions/builder.ts`.

The embedding models:
* JavaScript structural values (`JsValue`) as consumed by `Action.call`
  and `Action.getIndexArg`;
* the fragment of the zod validation library that `builder.ts` relies on
  (`ZodType` together with `zodParse`, `.nullable()`, `.describe()`,
  `.extend()` and `.partial()`), since the concrete schemas live in the
  sibling module `schemas.ts`;
* every handler of `ActionBuilder.buildDefaultActions` as an executable
  function from an environment (the outcomes of the external browser
  collaborator calls that the handler performs) and its validated input
  to the trace of external effects it performs plus either a thrown
  exception (`Except.error`) or the returned `ActionResult`.
-/

namespace EveIntel

/-- JavaScript structural values, as far as the action layer inspects them:
`undefined`, `null`, booleans, numbers (indices and ids are integral, so
numbers are modelled as `Int`), strings and plain objects (a field list). -/
inductive JsValue where
  | vUndefined
  | vNull
  | vBool (b : Bool)
  | vNum (n : Int)
  | vStr (s : String)
  | vObj (fields : List (String × JsValue))

/-- Field access on a JavaScript object literal: the first binding wins. -/
def lookupField : List (String × JsValue) → String → Option JsValue
  | [], _ => none
  | (k, v) :: rest, key => if k = key then some v else lookupField rest key

/-- The fragment of zod that `builder.ts` manipulates: primitive validators,
object schemas with a `shape` (ordered field list), `.optional()`,
`.nullable()` and `.describe(...)` wrappers. -/
inductive ZodType where
  | number
  | string
  | boolean
  | obj (shape : List (String × ZodType))
  | optional (t : ZodType)
  | nullable (t : ZodType)
  | described (t : ZodType) (description : String)

mutual

/-- Model of `schema.safeParse(input)`: `Except.ok` is a successful parse
(zod strips object keys that are not in the shape and omits fields that
parsed to `undefined`), `Except.error` carries the validator diagnostic. -/
def zodParse : ZodType → JsValue → Except String JsValue
  | .number, v =>
    match v with
    | .vNum n => .ok (.vNum n)
    | _ => .error "Expected number"
  | .string, v =>
    match v with
    | .vStr s => .ok (.vStr s)
    | _ => .error "Expected string"
  | .boolean, v =>
    match v with
    | .vBool b => .ok (.vBool b)
    | _ => .error "Expected boolean"
  | .optional t, v =>
    match v with
    | .vUndefined => .ok .vUndefined
    | _ => zodParse t v
  | .nullable t, v =>
    match v with
    | .vNull => .ok .vNull
    | _ => zodParse t v
  | .described t _, v => zodParse t v
  | .obj shape, v =>
    match v with
    | .vObj fields => Except.map JsValue.vObj (zodParseShape shape fields)
    | _ => .error "Expected object"

/-- Parses each field of an object shape against the supplied fields; a
missing field is parsed as `undefined` (so it fails unless the field
validator is optional). -/
def zodParseShape : List (String × ZodType) → List (String × JsValue) →
    Except String (List (String × JsValue))
  | [], _ => .ok []
  | (k, t) :: rest, fields =>
    match zodParse t ((lookupField fields k).getD .vUndefined) with
    | .error e => .error (k ++ ": " ++ e)
    | .ok pv =>
      match zodParseShape rest fields with
      | .error e => .error e
      | .ok pvs =>
        match pv with
        | .vUndefined => .ok pvs
        | _ => .ok ((k, pv) :: pvs)

end

/-- Model of `schema.isOptional()` (zod implements it as
`safeParse(undefined).success`). -/
def zodIsOptional (t : ZodType) : Bool :=
  match zodParse t .vUndefined with
  | .ok _ => true
  | .error _ => false

/-- Model of `schema.isNullable()` (zod implements it as
`safeParse(null).success`). -/
def zodIsNullable (t : ZodType) : Bool :=
  match zodParse t .vNull with
  | .ok _ => true
  | .error _ => false

/-- Modelled from the spec and from the use sites in `builder.ts`: the
`ActionSchema` interface of the sibling module `schemas.ts` (not under
`src/`) — a name, a model-facing description and a zod parameter schema. -/
structure ActionSchema where
  name : String
  description : String
  schema : ZodType

/-- The `Action` class of `builder.ts`, minus the bound handler (handlers
are passed explicitly to `actionCall` so that claims can quantify over
them). -/
structure Action where
  schema : ActionSchema
  hasIndex : Bool := false

/-- Model of the `isEmptySchema` test in `Action.call`:
`schema instanceof z.ZodObject && Object.keys(schema.shape).length === 0`. -/
def isEmptySchema : ZodType → Bool
  | .obj [] => true
  | _ => false

/-- The dedicated error kind `InvalidInputError` thrown by `Action.call`
when validation fails; it carries the validator message. -/
inductive ActionCallError where
  | invalidInput (message : String)

/-- Model of `Action.call`: if the parameter schema is an empty object
schema the input is ignored and the handler runs on `{}`; otherwise the
input is parsed, a parse failure throws `InvalidInputError` with the
validator message and the handler is not invoked, and a parse success runs
the handler on the parsed data. The handler is abstract (`JsValue → ρ`). -/
def actionCall {ρ : Type} (a : Action) (handler : JsValue → ρ) (input : JsValue) :
    Except ActionCallError ρ :=
  if isEmptySchema a.schema.schema then
    .ok (handler (.vObj []))
  else
    match zodParse a.schema.schema input with
    | .error msg => .error (.invalidInput msg)
    | .ok parsed => .ok (handler parsed)

/-- Model of `Action.getIndexArg`: `null` when the action has no index;
otherwise, when the raw input is a (truthy) object with an `index` field,
the value of that field is returned as-is (the source performs only an
`'index' in input` check and a type cast, no numeric check); `null`
otherwise. -/
def Action.getIndexArg (a : Action) (input : JsValue) : JsValue :=
  if a.hasIndex then
    match input with
    | .vObj fields => (lookupField fields "index").getD .vNull
    | _ => .vNull
  else .vNull

/-- JavaScript object spread `\x7b...shape, [k]: v\x7d` as used by
`ZodObject.extend`: an existing key keeps its position and gets the new
value, a fresh key is appended. -/
def jsObjAssign (shape : List (String × ZodType)) (k : String) (v : ZodType) :
    List (String × ZodType) :=
  if shape.any (fun p => p.1 = k) then
    shape.map (fun p => if p.1 = k then (k, v) else p)
  else shape ++ [(k, v)]

/-- Model of `schema.extend(\x7b[name]: t\x7d)` on a `ZodObject`. -/
def zodExtend : ZodType → String → ZodType → ZodType
  | .obj shape, k, v => .obj (jsObjAssign shape k v)
  | t, _, _ => t

/-- Model of `ZodObject.partial()`: every field of the shape is wrapped in
`.optional()`. -/
def zodMarkAllOptional : ZodType → ZodType
  | .obj shape => .obj (shape.map (fun p => (p.1, ZodType.optional p.2)))
  | t => t

/-- The schema entry that `buildDynamicActionSchema` adds for one action:
`action.schema.schema.nullable().describe(action.schema.description)`. -/
def dynamicEntry (a : Action) : String × ZodType :=
  (a.schema.name, .described (.nullable a.schema.schema) a.schema.description)

/-- Model of `buildDynamicActionSchema`: starting from `z.object(\x7b\x7d)`,
extend with one nullable, described field per action, then `.partial()`. -/
def buildDynamicActionSchema (actions : List Action) : ZodType :=
  zodMarkAllOptional
    (actions.foldl
      (fun sch a =>
        zodExtend sch a.schema.name
          (ZodType.described (ZodType.nullable a.schema.schema) a.schema.description))
      (.obj []))

/-- Top-level field names of an object schema. -/
def topFieldNames : ZodType → List String
  | .obj shape => shape.map Prod.fst
  | _ => []

/-- Top-level field lookup in an object schema. -/
def topFieldLookup : ZodType → String → Option ZodType
  | .obj shape, k => (shape.find? (fun p => p.1 = k)).map Prod.snd
  | _, _ => none

/-- The `Actors` enum of `event/types.ts`, restricted to the only actor the
action layer uses. -/
inductive Actors where
  | NAVIGATOR
deriving DecidableEq, Repr

/-- The execution-state phases of the event protocol. -/
inductive ExecutionState where
  | ACT_START
  | ACT_OK
  | ACT_FAIL
deriving DecidableEq, Repr

/-- Modelled from the spec: the `ActionResult` value of `types.ts` (not
under `src/`) — `isDone` defaults to false, `extractedContent` and `error`
are optional strings, `includeInMemory` defaults to false. -/
structure ActionResult where
  isDone : Bool := false
  extractedContent : Option String := none
  error : Option String := none
  includeInMemory : Bool := false
deriving DecidableEq, Repr

/-- The slice of a DOM element node that the handlers inspect: its tag name
(`none` models an undefined `tagName`) and the text returned by
`getAllTextTillNextClickableElement(2)`. -/
structure ElementNode where
  tagName : Option String := none
  textTillNextClickable : String := ""
deriving DecidableEq, Repr

/-- One dropdown option as returned by `page.getDropdownOptions`. -/
structure DropdownOption where
  index : Nat
  text : String
deriving DecidableEq, Repr

/-- The external calls a handler performs, in order: event emission plus
the browser-control and extraction-model collaborator operations. -/
inductive Effect where
  | emitEvent (actor : Actors) (state : ExecutionState) (message : String)
  | navigateTo (url : String) (background : Bool)
  | getCurrentPage (background : Bool)
  | goBack
  | getState
  | isFileUploader (node : ElementNode)
  | getAllTabIds
  | clickElementNode (useVision : Bool) (node : ElementNode)
  | switchTab (tabId : Int) (background : Option Bool)
  | openTab (url : String) (background : Bool)
  | closeTab (tabId : Int)
  | inputTextElementNode (useVision : Bool) (node : ElementNode) (text : String)
  | scrollDown (amount : Option Nat)
  | scrollUp (amount : Option Nat)
  | sendKeys (keys : String)
  | scrollToText (text : String)
  | getDropdownOptions (index : Nat)
  | selectDropdownOption (index : Nat) (text : String)
  | getReadabilityContent
  | invokeExtractor (prompt : String)
deriving DecidableEq, Repr

/-- A handler run: the ordered trace of external calls it performed, and
either a thrown exception (`Except.error`, carrying the message) or the
`ActionResult` it returned. -/
abbrev HandlerOutcome := List Effect × Except String ActionResult

/-- Lookup in the selector map produced by `page.getState()`
(`state.selectorMap.get(index)`). -/
def lookupIndex : List (Nat × ElementNode) → Nat → Option ElementNode
  | [], _ => none
  | (i, node) :: rest, idx => if i = idx then some node else lookupIndex rest idx

/-- The shared "element not found" diagnostic used by the index-bearing
handlers. -/
def missingElementMsg (idx : Nat) : String :=
  s!"Element with index {idx} does not exist - retry or use alternative actions"

/-- The `done` handler: emits ACT_START with the schema name, ACT_OK with
the supplied text, and returns a done result echoing the text. -/
def doneExec (text : String) : HandlerOutcome :=
  ([.emitEvent .NAVIGATOR .ACT_START "done",
    .emitEvent .NAVIGATOR .ACT_OK text],
   .ok { isDone := true, extractedContent := some text })

/-- Environment for handlers whose only fallible external call is a single
navigation (`search_google`, `go_to_url`). -/
structure NavigateEnv where
  navigateResult : Except String Unit
deriving Repr

/-- The `search_google` handler. -/
def searchGoogleExec (env : NavigateEnv) (query : String) : HandlerOutcome :=
  let msg := s!"Searching for \"{query}\" in Google"
  let url := s!"https://www.google.com/search?q={query}"
  let evs : List Effect := [.emitEvent .NAVIGATOR .ACT_START msg, .navigateTo url true]
  match env.navigateResult with
  | .error e => (evs, .error e)
  | .ok _ =>
    let msg2 := s!"Searched for \"{query}\" in Google (background)"
    (evs ++ [.emitEvent .NAVIGATOR .ACT_OK msg2],
     .ok { extractedContent := some msg2, includeInMemory := true })

/-- The `go_to_url` handler (always background mode). -/
def goToUrlExec (env : NavigateEnv) (url : String) : HandlerOutcome :=
  let msg := s!"Navigating to {url}"
  let evs : List Effect := [.emitEvent .NAVIGATOR .ACT_START msg, .navigateTo url true]
  match env.navigateResult with
  | .error e => (evs, .error e)
  | .ok _ =>
    let msg2 := s!"Navigated to {url} (in background)"
    (evs ++ [.emitEvent .NAVIGATOR .ACT_OK msg2],
     .ok { extractedContent := some msg2, includeInMemory := true })

/-- Environment for `go_back`: outcome of `page.goBack()` (the preceding
`getCurrentPage` is modelled as succeeding). -/
structure GoBackEnv where
  goBackResult : Except String Unit
deriving Repr

/-- The `go_back` handler. -/
def goBackExec (env : GoBackEnv) : HandlerOutcome :=
  let evs : List Effect :=
    [.emitEvent .NAVIGATOR .ACT_START "Navigating back", .getCurrentPage true, .goBack]
  match env.goBackResult with
  | .error e => (evs, .error e)
  | .ok _ =>
    (evs ++ [.emitEvent .NAVIGATOR .ACT_OK "Navigated back (background)"],
     .ok { extractedContent := some "Navigated back (background)", includeInMemory := true })

/-- Validated input of `click_element`: a required numeric index and an
optional description. -/
structure ClickInput where
  index : Nat
  desc : Option String := none
deriving DecidableEq, Repr

/-- Environment for `click_element`: the vision option, the selector map of
the current page state, the result of the `isFileUploader` check, the
outcome of `clickElementNode` (the other calls inside the `try` block are
modelled as succeeding) and the tab-id sets read before and after the
click. -/
structure ClickEnv where
  useVision : Bool := false
  selectorMap : List (Nat × ElementNode) := []
  isFileUploaderResult : Bool := false
  clickResult : Except String Unit := .ok ()
  initialTabIds : List Int := []
  currentTabIds : List Int := []
deriving Repr

/-- The file-uploader diagnostic of the `click_element` handler. -/
def fileUploaderMsg (idx : Nat) : String :=
  s!"Index {idx} - has an element which opens file upload dialog. To upload files please use a specific function to upload files"

/-- The `click_element` handler: throws when the index is missing from the
selector map; short-circuits (without clicking and without a terminal
event) when the element is a file uploader; otherwise clicks, switching to
a newly opened tab when the tab-id set grew, and converts a click failure
into a failed result with an ACT_FAIL event. -/
def clickElementExec (env : ClickEnv) (input : ClickInput) : HandlerOutcome :=
  let todo := input.desc.getD s!"Click element with index {input.index}"
  let startEvs : List Effect :=
    [.emitEvent .NAVIGATOR .ACT_START todo, .getCurrentPage true, .getState]
  match lookupIndex env.selectorMap input.index with
  | none => (startEvs, .error (missingElementMsg input.index))
  | some node =>
    let evs1 := startEvs ++ [.isFileUploader node]
    if env.isFileUploaderResult then
      (evs1, .ok { extractedContent := some (fileUploaderMsg input.index),
                   includeInMemory := true })
    else
      let evs2 := evs1 ++ [.getAllTabIds, .clickElementNode env.useVision node]
      match env.clickResult with
      | .error e =>
        let failMsg := s!"Element no longer available with index {input.index} - most likely the page changed"
        (evs2 ++ [.emitEvent .NAVIGATOR .ACT_FAIL failMsg], .ok { error := some e })
      | .ok _ =>
        let baseMsg := s!"Clicked button with index {input.index}: {node.textTillNextClickable}"
        let evs3 := evs2 ++ [.getAllTabIds]
        if env.initialTabIds.length < env.currentTabIds.length then
          let msg := baseMsg ++ " - New tab opened - switching to it"
          match env.currentTabIds.find? (fun id => !env.initialTabIds.contains id) with
          | some newTabId =>
            (evs3 ++ [.switchTab newTabId none, .emitEvent .NAVIGATOR .ACT_OK msg],
             .ok { extractedContent := some msg, includeInMemory := true })
          | none =>
            (evs3 ++ [.emitEvent .NAVIGATOR .ACT_OK msg],
             .ok { extractedContent := some msg, includeInMemory := true })
        else
          (evs3 ++ [.emitEvent .NAVIGATOR .ACT_OK baseMsg],
           .ok { extractedContent := some baseMsg, includeInMemory := true })

/-- Validated input of `input_text`. -/
structure InputTextInput where
  index : Nat
  text : String
  desc : Option String := none
deriving DecidableEq, Repr

/-- Environment for `input_text`. -/
structure InputTextEnv where
  useVision : Bool := false
  selectorMap : List (Nat × ElementNode) := []
  inputResult : Except String Unit := .ok ()
deriving Repr

/-- The `input_text` handler: throws when the index is missing from the
selector map; other failures of `inputTextElementNode` also propagate. -/
def inputTextExec (env : InputTextEnv) (input : InputTextInput) : HandlerOutcome :=
  let todo := input.desc.getD s!"Input text into index {input.index}"
  let startEvs : List Effect :=
    [.emitEvent .NAVIGATOR .ACT_START todo, .getCurrentPage true, .getState]
  match lookupIndex env.selectorMap input.index with
  | none => (startEvs, .error (missingElementMsg input.index))
  | some node =>
    let evs := startEvs ++ [.inputTextElementNode env.useVision node input.text]
    match env.inputResult with
    | .error e => (evs, .error e)
    | .ok _ =>
      let msg := s!"Input {input.text} into index {input.index}"
      (evs ++ [.emitEvent .NAVIGATOR .ACT_OK msg],
       .ok { extractedContent := some msg, includeInMemory := true })

/-- Environment for `switch_tab`. -/
structure SwitchTabEnv where
  switchResult : Except String Unit := .ok ()
deriving Repr

/-- The `switch_tab` handler (always background mode). -/
def switchTabExec (env : SwitchTabEnv) (tabId : Int) : HandlerOutcome :=
  let evs : List Effect :=
    [.emitEvent .NAVIGATOR .ACT_START s!"Switching to tab {tabId}",
     .switchTab tabId (some true)]
  match env.switchResult with
  | .error e => (evs, .error e)
  | .ok _ =>
    let msg := s!"Switched to tab {tabId} (in background)"
    (evs ++ [.emitEvent .NAVIGATOR .ACT_OK msg],
     .ok { extractedContent := some msg, includeInMemory := true })

/-- Environment for `open_tab`: the outcome of `openTab`, successful runs
yielding the new page's tab id. -/
structure OpenTabEnv where
  openResult : Except String Int := .ok 1
deriving Repr

/-- The `open_tab` handler (always background mode; the new tab id is
embedded in the result message). -/
def openTabExec (env : OpenTabEnv) (url : String) : HandlerOutcome :=
  let evs : List Effect :=
    [.emitEvent .NAVIGATOR .ACT_START s!"Opening {url} in new tab (background)",
     .openTab url true]
  match env.openResult with
  | .error e => (evs, .error e)
  | .ok tid =>
    let msg := s!"Opened {url} in new tab (ID: {tid}, background mode)"
    (evs ++ [.emitEvent .NAVIGATOR .ACT_OK msg],
     .ok { extractedContent := some msg, includeInMemory := true })

/-- The `tab_id` argument of `close_tab` as it reaches the handler: absent,
`null`, or a number. -/
inductive TabIdArg where
  | absent
  | null
  | num (n : Int)
deriving DecidableEq, Repr

/-- JavaScript truthiness of the `tab_id` argument (`if (tabId)`): only a
nonzero number is truthy. -/
def TabIdArg.truthy : TabIdArg → Bool
  | .num n => n ≠ 0
  | _ => false

/-- The numeric value of a truthy `tab_id`. -/
def TabIdArg.toNum : TabIdArg → Int
  | .num n => n
  | _ => 0

/-- Environment for `close_tab`: the tab id of the current page (read when
`tab_id` is falsy) and the outcome of `closeTab`. -/
structure CloseTabEnv where
  currentPageTabId : Int := 0
  closeResult : Except String Unit := .ok ()
deriving Repr

/-- The `close_tab` handler: a truthy `tab_id` is closed directly;
otherwise the current page is looked up and its tab id is closed. -/
def closeTabExec (env : CloseTabEnv) (tab_id : TabIdArg) : HandlerOutcome :=
  if tab_id.truthy then
    let tid := tab_id.toNum
    let evs : List Effect :=
      [.emitEvent .NAVIGATOR .ACT_START s!"Closing tab {tid}", .closeTab tid]
    match env.closeResult with
    | .error e => (evs, .error e)
    | .ok _ =>
      let msg := s!"Closed tab {tid}"
      (evs ++ [.emitEvent .NAVIGATOR .ACT_OK msg],
       .ok { extractedContent := some msg, includeInMemory := true })
  else
    let ctid := env.currentPageTabId
    let evs : List Effect :=
      [.getCurrentPage true,
       .emitEvent .NAVIGATOR .ACT_START s!"Closing current tab {ctid}",
       .closeTab ctid]
    match env.closeResult with
    | .error e => (evs, .error e)
    | .ok _ =>
      let msg := s!"Closed current tab {ctid}"
      (evs ++ [.emitEvent .NAVIGATOR .ACT_OK msg],
       .ok { extractedContent := some msg, includeInMemory := true })

/-- The prompt template of the `extract_content` handler, verbatim. -/
def extractPromptTemplate : String :=
  "Your task is to extract the content of the page. You will be given a page and a goal and you should extract all relevant information around this goal from the page. If the goal is vague, summarize the page. Respond in json format. Extraction goal: {goal}, Page: {page}"

/-- Model of `promptTemplate.invoke(\x7bgoal, page\x7d)`: substitute the two
template variables. -/
def renderExtractPrompt (goal page : String) : String :=
  (extractPromptTemplate.replace "{goal}" goal).replace "{page}" page

/-- Environment for `extract_content`: the outcomes of `getCurrentPage`,
`getReadabilityContent` (yielding `content.content`) and the extraction
model invocation (yielding `output.content`). -/
structure ExtractEnv where
  pageResult : Except String Unit := .ok ()
  readabilityResult : Except String String := .ok ""
  llmResult : Except String String := .ok ""
deriving Repr

/-- The fallback diagnostic returned by `extract_content` when the
extraction model fails. -/
def extractFallbackMsg : String :=
  "Failed to extract content from page, you need to extract content from the current state of the page and store it in the memory. Then scroll down if you still need more information."

/-- The `extract_content` handler: page lookup and readability extraction
happen outside the `try` block, so their failures propagate; only the
extraction-model invocation is guarded, its failure yielding the fallback
result. The handler emits no execution events at all. -/
def extractContentExec (env : ExtractEnv) (goal : String) : HandlerOutcome :=
  match env.pageResult with
  | .error e => ([.getCurrentPage true], .error e)
  | .ok _ =>
    match env.readabilityResult with
    | .error e => ([.getCurrentPage true, .getReadabilityContent], .error e)
    | .ok content =>
      let evs : List Effect :=
        [.getCurrentPage true, .getReadabilityContent,
         .invokeExtractor (renderExtractPrompt goal content)]
      match env.llmResult with
      | .ok output =>
        let msg := s!"📄  Extracted from page\n: {output}\n"
        (evs, .ok { extractedContent := some msg, includeInMemory := true })
      | .error _ =>
        (evs, .ok { extractedContent := some extractFallbackMsg, includeInMemory := true })

/-- The `cache_content` handler: emits ACT_START with the schema name and
ACT_OK with the cached-findings message. -/
def cacheContentExec (content : String) : HandlerOutcome :=
  let msg := s!"Cached findings: {content}"
  ([.emitEvent .NAVIGATOR .ACT_START "cache_content",
    .emitEvent .NAVIGATOR .ACT_OK msg],
   .ok { extractedContent := some msg, includeInMemory := true })

/-- Validated input of the scroll actions: optional pixel amount, optional
description. -/
structure ScrollInput where
  amount : Option Nat := none
  desc : Option String := none
deriving DecidableEq, Repr

/-- Environment for the scroll and key handlers: outcome of the single
page operation. -/
structure PageOpEnv where
  opResult : Except String Unit := .ok ()
deriving Repr

/-- Renders the scrolled amount: the pixel count when given, otherwise one
page. -/
def scrollAmountMsg : Option Nat → String
  | some a => s!"{a} pixels"
  | none => "one page"

/-- The `scroll_down` handler. -/
def scrollDownExec (env : PageOpEnv) (input : ScrollInput) : HandlerOutcome :=
  let todo := input.desc.getD "Scroll down the page"
  let evs : List Effect :=
    [.emitEvent .NAVIGATOR .ACT_START todo, .getCurrentPage true, .scrollDown input.amount]
  match env.opResult with
  | .error e => (evs, .error e)
  | .ok _ =>
    let msg := s!"Scrolled down the page by {scrollAmountMsg input.amount}"
    (evs ++ [.emitEvent .NAVIGATOR .ACT_OK msg],
     .ok { extractedContent := some msg, includeInMemory := true })

/-- The `scroll_up` handler. -/
def scrollUpExec (env : PageOpEnv) (input : ScrollInput) : HandlerOutcome :=
  let todo := input.desc.getD "Scroll up the page"
  let evs : List Effect :=
    [.emitEvent .NAVIGATOR .ACT_START todo, .getCurrentPage true, .scrollUp input.amount]
  match env.opResult with
  | .error e => (evs, .error e)
  | .ok _ =>
    let msg := s!"Scrolled up the page by {scrollAmountMsg input.amount}"
    (evs ++ [.emitEvent .NAVIGATOR .ACT_OK msg],
     .ok { extractedContent := some msg, includeInMemory := true })

/-- Validated input of `send_keys`. -/
structure SendKeysInput where
  keys : String
  desc : Option String := none
deriving DecidableEq, Repr

/-- The `send_keys` handler. -/
def sendKeysExec (env : PageOpEnv) (input : SendKeysInput) : HandlerOutcome :=
  let todo := input.desc.getD s!"Send keys: {input.keys}"
  let evs : List Effect :=
    [.emitEvent .NAVIGATOR .ACT_START todo, .getCurrentPage true, .sendKeys input.keys]
  match env.opResult with
  | .error e => (evs, .error e)
  | .ok _ =>
    let msg := s!"Sent keys: {input.keys}"
    (evs ++ [.emitEvent .NAVIGATOR .ACT_OK msg],
     .ok { extractedContent := some msg, includeInMemory := true })

/-- Validated input of `scroll_to_text`. -/
structure ScrollToTextInput where
  text : String
  desc : Option String := none
deriving DecidableEq, Repr

/-- Environment for `scroll_to_text`: the outcome of `page.scrollToText`
(`true` when the text was found and scrolled to). -/
structure ScrollToTextEnv where
  scrollResult : Except String Bool := .ok true
deriving Repr

/-- The `scroll_to_text` handler: found and not-found are both successful
results; a `scrollToText` exception is caught and becomes a failed result
with an ACT_FAIL event. -/
def scrollToTextExec (env : ScrollToTextEnv) (input : ScrollToTextInput) : HandlerOutcome :=
  let todo := input.desc.getD s!"Scroll to text: {input.text}"
  let evs : List Effect :=
    [.emitEvent .NAVIGATOR .ACT_START todo, .getCurrentPage true, .scrollToText input.text]
  match env.scrollResult with
  | .ok scrolled =>
    let msg :=
      if scrolled then s!"Scrolled to text: {input.text}"
      else s!"Text \x27{input.text}\x27 not found or not visible on page"
    (evs ++ [.emitEvent .NAVIGATOR .ACT_OK msg],
     .ok { extractedContent := some msg, includeInMemory := true })
  | .error e =>
    let msg := s!"Failed to scroll to text: {e}"
    (evs ++ [.emitEvent .NAVIGATOR .ACT_FAIL msg],
     .ok { error := some msg, includeInMemory := true })

/-- Validated input of `get_dropdown_options`. -/
structure IndexInput where
  index : Nat
deriving DecidableEq, Repr

/-- Environment for `get_dropdown_options`: the selector map and the
outcome of `page.getDropdownOptions` (`none` models a null/undefined
options value, triggering the fallback branch). -/
structure GetDropdownEnv where
  selectorMap : List (Nat × ElementNode) := []
  optionsResult : Except String (Option (List DropdownOption)) := .ok (some [])
deriving Repr

/-- Model of `JSON.stringify` on a string (escaping of special characters
inside the text is not modelled). -/
def jsonStringifyStr (s : String) : String := "\"" ++ s ++ "\""

/-- Formats one dropdown option as the handler does. -/
def formatDropdownOption (opt : DropdownOption) : String :=
  let enc := jsonStringifyStr opt.text
  s!"{opt.index}: text={enc}"

/-- The `get_dropdown_options` handler: a missing element or a thrown
`getDropdownOptions` becomes a failed result with an ACT_FAIL event;
options are formatted for exact reuse; a null or empty options value takes
the fallback success branch. -/
def getDropdownOptionsExec (env : GetDropdownEnv) (input : IndexInput) : HandlerOutcome :=
  let todo := s!"Getting options from dropdown with index {input.index}"
  let startEvs : List Effect :=
    [.emitEvent .NAVIGATOR .ACT_START todo, .getCurrentPage true, .getState]
  match lookupIndex env.selectorMap input.index with
  | none =>
    let errorMsg := missingElementMsg input.index
    (startEvs ++ [.emitEvent .NAVIGATOR .ACT_FAIL errorMsg],
     .ok { error := some errorMsg, includeInMemory := true })
  | some _ =>
    let evs := startEvs ++ [.getDropdownOptions input.index]
    match env.optionsResult with
    | .error e =>
      let errorMsg := s!"Failed to get dropdown options: {e}"
      (evs ++ [.emitEvent .NAVIGATOR .ACT_FAIL errorMsg],
       .ok { error := some errorMsg, includeInMemory := true })
    | .ok optionsOpt =>
      match optionsOpt with
      | some (o :: os) =>
        let options := o :: os
        let formatted := options.map formatDropdownOption
        let msg := String.intercalate "\n" formatted ++
          "\nUse the exact text string in select_dropdown_option"
        (evs ++ [.emitEvent .NAVIGATOR .ACT_OK s!"Got {options.length} options from dropdown"],
         .ok { extractedContent := some msg, includeInMemory := true })
      | some [] =>
        (evs ++ [.emitEvent .NAVIGATOR .ACT_OK "No options found in dropdown"],
         .ok { extractedContent := some "No options found in dropdown", includeInMemory := true })
      | none =>
        (evs ++ [.emitEvent .NAVIGATOR .ACT_OK "No options found in dropdown"],
         .ok { extractedContent := some "No options found in dropdown", includeInMemory := true })

/-- Validated input of `select_dropdown_option`. -/
structure SelectDropdownInput where
  index : Nat
  text : String
deriving DecidableEq, Repr

/-- Environment for `select_dropdown_option`: the selector map and the
outcome of `page.selectDropdownOption` (successful runs yield its message
string). -/
structure SelectDropdownEnv where
  selectorMap : List (Nat × ElementNode) := []
  selectResult : Except String String := .ok ""
deriving Repr

/-- JavaScript falsiness of an optional tag name (`!elementNode.tagName`):
undefined or the empty string. -/
def tagNameFalsy : Option String → Bool
  | none => true
  | some t => t = ""

/-- Rendering of `elementNode.tagName \x7c\x7c 'unknown'`. -/
def tagNameOrUnknown : Option String → String
  | none => "unknown"
  | some t => if t = "" then "unknown" else t

/-- The `select_dropdown_option` handler: a missing element, a non-select
element or a thrown `selectDropdownOption` becomes a failed result with an
ACT_FAIL event; on success the result carries the collaborator message. -/
def selectDropdownOptionExec (env : SelectDropdownEnv) (input : SelectDropdownInput) :
    HandlerOutcome :=
  let todo := s!"Select option \"{input.text}\" from dropdown with index {input.index}"
  let startEvs : List Effect :=
    [.emitEvent .NAVIGATOR .ACT_START todo, .getCurrentPage true, .getState]
  match lookupIndex env.selectorMap input.index with
  | none =>
    let errorMsg := missingElementMsg input.index
    (startEvs ++ [.emitEvent .NAVIGATOR .ACT_FAIL errorMsg],
     .ok { error := some errorMsg, includeInMemory := true })
  | some node =>
    if tagNameFalsy node.tagName || (node.tagName.getD "").toLower ≠ "select" then
      let tagStr := tagNameOrUnknown node.tagName
      let errorMsg := s!"Cannot select option: Element with index {input.index} is a {tagStr}, not a SELECT"
      (startEvs ++ [.emitEvent .NAVIGATOR .ACT_FAIL errorMsg],
       .ok { error := some errorMsg, includeInMemory := true })
    else
      let evs := startEvs ++ [.selectDropdownOption input.index input.text]
      match env.selectResult with
      | .ok result =>
        let msg := s!"Selected option \"{input.text}\" from dropdown with index {input.index}"
        (evs ++ [.emitEvent .NAVIGATOR .ACT_OK msg],
         .ok { extractedContent := some result, includeInMemory := true })
      | .error e =>
        let errorMsg := s!"Failed to select option: {e}"
        (evs ++ [.emitEvent .NAVIGATOR .ACT_FAIL errorMsg],
         .ok { error := some errorMsg, includeInMemory := true })

/-- The phases of the execution events in a trace, in emission order. -/
def eventPhases (effects : List Effect) : List ExecutionState :=
  effects.filterMap fun e =>
    match e with
    | .emitEvent _ st _ => some st
    | _ => none

/-- The event protocol a conforming handler satisfies on a run that does
not throw: exactly one ACT_START followed by exactly one terminal event. -/
def protocolOK (effects : List Effect) : Prop :=
  eventPhases effects = [.ACT_START, .ACT_OK] ∨
  eventPhases effects = [.ACT_START, .ACT_FAIL]

/-- A handler run that returned without throwing. -/
def returnsOk (o : HandlerOutcome) : Prop :=
  ∃ r, o.2 = Except.ok r

/-- The field of the combined dynamic schema contributed by one action,
after `.partial()`: named after the action, optional, nullable, described. -/
def dynamicField (a : Action) : String × ZodType :=
  (a.schema.name,
   .optional (.described (.nullable a.schema.schema) a.schema.description))

/-- A concrete action with a one-field numeric parameter schema, used as a
test input. -/
def demoIndexAction : Action :=
  { schema := { name := "demo", description := "a demo action",
                schema := .obj [("index", .number)] } }

/-- A concrete action with an empty parameter schema, used as a test
input. -/
def demoEmptyAction : Action :=
  { schema := { name := "noop", description := "a no-argument action",
                schema := .obj [] } }

/-- A concrete index-bearing action, used as a test input. -/
def demoClickAction : Action :=
  { schema := { name := "click_element", description := "click an element",
                schema := .obj [("index", .number)] },
    hasIndex := true }

/-- A fully successful environment for `extract_content`, used as a test
input. -/
def extractEnvOk : ExtractEnv :=
  { pageResult := .ok (), readabilityResult := .ok "page body",
    llmResult := .ok "a summary" }

/-- C2, counterexample: invoking `click_element` with index 1 while the
selector map is empty makes the handler throw (the outcome is an
exception, not a failed `ActionResult`), contradicting the claim that the
element-not-found case returns a failed result rather than throwing. -/
theorem c2_counterexample :
    (clickElementExec { selectorMap := [] } { index := 1 }).2 =
      Except.error (missingElementMsg 1) ∧
    missingElementMsg 1 =
      "Element with index 1 does not exist - retry or use alternative actions" :=
  ⟨rfl, rfl⟩

/-- C2, amended: the `click_element` handler throws when the index is not
in the selector map, and returns a failed `ActionResult` with `error` set
(without throwing) when the click operation itself fails. -/
theorem c2_click_element_failure_modes :
    (∀ (env : ClickEnv) (input : ClickInput),
      lookupIndex env.selectorMap input.index = none →
      (clickElementExec env input).2 = Except.error (missingElementMsg input.index)) ∧
    (∀ (env : ClickEnv) (input : ClickInput) (node : ElementNode) (e : String),
      lookupIndex env.selectorMap input.index = some node →
      env.isFileUploaderResult = false →
      env.clickResult = Except.error e →
      (clickElementExec env input).2 = Except.ok { error := some e }) := by
  constructor
  · intro env input h
    simp [clickElementExec, h]
  · intro env input node e hfound hupl hclick
    simp [clickElementExec, hfound, hupl, hclick]

/-- C2, witness: both amended branches at concrete inputs. -/
theorem c2_witness :
    (clickElementExec { selectorMap := [] } { index := 3 }).2 =
      Except.error (missingElementMsg 3) ∧
    (clickElementExec { selectorMap := [(2, {})], clickResult := .error "boom" }
        { index := 2 }).2 =
      Except.ok { error := some "boom" } :=
  ⟨c2_click_element_failure_modes.1 _ _ rfl,
   c2_click_element_failure_modes.2 _ _ {} "boom" rfl rfl rfl⟩

/-- C3: with an index absent from the selector map, `get_dropdown_options`
and `select_dropdown_option` return a failed `ActionResult` whose `error`
is the diagnostic naming the missing index, without throwing, while
`click_element` and `input_text` throw for the same condition. -/
theorem c3_missing_index_taxonomy :
    (∀ (env : GetDropdownEnv) (idx : Nat),
      lookupIndex env.selectorMap idx = none →
      (getDropdownOptionsExec env { index := idx }).2 =
        Except.ok { error := some (missingElementMsg idx), includeInMemory := true }) ∧
    (∀ (env : SelectDropdownEnv) (idx : Nat) (text : String),
      lookupIndex env.selectorMap idx = none →
      (selectDropdownOptionExec env { index := idx, text := text }).2 =
        Except.ok { error := some (missingElementMsg idx), includeInMemory := true }) ∧
    (∀ (env : ClickEnv) (input : ClickInput),
      lookupIndex env.selectorMap input.index = none →
      (clickElementExec env input).2 = Except.error (missingElementMsg input.index)) ∧
    (∀ (env : InputTextEnv) (input : InputTextInput),
      lookupIndex env.selectorMap input.index = none →
      (inputTextExec env input).2 = Except.error (missingElementMsg input.index)) := by
  refine ⟨?_, ?_, ?_, ?_⟩
  · intro env idx h
    simp [getDropdownOptionsExec, h]
  · intro env idx text h
    simp [selectDropdownOptionExec, h]
  · intro env input h
    simp [clickElementExec, h]
  · intro env input h
    simp [inputTextExec, h]

/-- C3, witness: all four branches at index 7 with an empty selector
map. -/
theorem c3_witness :
    (getDropdownOptionsExec { selectorMap := [] } { index := 7 }).2 =
      Except.ok { error := some (missingElementMsg 7), includeInMemory := true } ∧
    (selectDropdownOptionExec { selectorMap := [] } { index := 7, text := "opt" }).2 =
      Except.ok { error := some (missingElementMsg 7), includeInMemory := true } ∧
    (clickElementExec { selectorMap := [] } { index := 7 }).2 =
      Except.error (missingElementMsg 7) ∧
    (inputTextExec { selectorMap := [] } { index := 7, text := "hello" }).2 =
      Except.error (missingElementMsg 7) :=
  ⟨c3_missing_index_taxonomy.1 _ 7 rfl,
   c3_missing_index_taxonomy.2.1 _ 7 "opt" rfl,
   c3_missing_index_taxonomy.2.2.1 _ _ rfl,
   c3_missing_index_taxonomy.2.2.2 _ _ rfl⟩

/-- C4, counterexample: when `getReadabilityContent` fails, the
`extract_content` handler throws (that call sits outside the handler's
`try` block), contradicting the claim that it never throws and converts
every failure into a recoverable result. -/
theorem c4_counterexample :
    (extractContentExec { readabilityResult := .error "readability failed" } "g").2 =
      Except.error "readability failed" :=
  rfl

/-- C4, amended: only extraction-model failures are caught — when the page
snapshot and the readability extraction succeed, the handler never throws,
and an extraction-model failure yields a recoverable result whose
`extractedContent` is the manual-extraction fallback diagnostic; snapshot
and readability failures propagate as exceptions. -/
theorem c4_extract_content_model_failure (env : ExtractEnv) (goal content : String)
    (hp : env.pageResult = Except.ok ())
    (hr : env.readabilityResult = Except.ok content) :
    returnsOk (extractContentExec env goal) ∧
    (∀ e, env.llmResult = Except.error e →
      (extractContentExec env goal).2 =
        Except.ok { extractedContent := some extractFallbackMsg, includeInMemory := true }) := by
  constructor
  · cases hl : env.llmResult <;>
      simp [returnsOk, extractContentExec, hp, hr, hl]
  · intro e hl
    simp [extractContentExec, hp, hr, hl]

/-- C4, witness: a concrete model failure yields the fallback result. -/
theorem c4_witness :
    returnsOk (extractContentExec
      { pageResult := .ok (), readabilityResult := .ok "body", llmResult := .error "model down" }
      "prices") ∧
    (extractContentExec
      { pageResult := .ok (), readabilityResult := .ok "body", llmResult := .error "model down" }
      "prices").2 =
      Except.ok { extractedContent := some extractFallbackMsg, includeInMemory := true } := by
  have h := c4_extract_content_model_failure
    { pageResult := .ok (), readabilityResult := .ok "body", llmResult := .error "model down" }
    "prices" "body" rfl rfl
  exact ⟨h.1, h.2 "model down" rfl⟩

/-- C5: for any action whose parameter schema is non-empty and any raw
input that fails to parse, `Action.call` fails with the dedicated
`InvalidInputError` kind carrying the validator diagnostic, and the bound
handler is never invoked — the outcome is the same error for every
handler, of every result type. -/
theorem c5_invalid_input_blocks_handler (a : Action) (input : JsValue) (msg : String)
    (hne : isEmptySchema a.schema.schema = false)
    (hparse : zodParse a.schema.schema input = Except.error msg) :
    ∀ {ρ : Type} (handler : JsValue → ρ),
      actionCall a handler input = Except.error (ActionCallError.invalidInput msg) := by
  intro ρ handler
  simp [actionCall, hne, hparse]

/-- C5, witness: a malformed input against a one-field schema yields
`InvalidInputError` for two different handlers (of different result
types). -/
theorem c5_witness :
    actionCall demoIndexAction (fun _ => (0 : Nat)) (JsValue.vStr "oops") =
      Except.error (ActionCallError.invalidInput "Expected object") ∧
    actionCall demoIndexAction (fun _ => true) (JsValue.vStr "oops") =
      Except.error (ActionCallError.invalidInput "Expected object") :=
  ⟨c5_invalid_input_blocks_handler demoIndexAction (JsValue.vStr "oops") _ rfl rfl _,
   c5_invalid_input_blocks_handler demoIndexAction (JsValue.vStr "oops") _ rfl rfl _⟩

/-- C6: for any action whose parameter schema is an object schema with
zero fields, `Action.call` skips validation and invokes the handler on the
empty object, so calling it on any input gives the same outcome as calling
it on the empty object. -/
theorem c6_empty_schema_ignores_input (a : Action)
    (hempty : isEmptySchema a.schema.schema = true) :
    ∀ {ρ : Type} (handler : JsValue → ρ) (input : JsValue),
      actionCall a handler input = Except.ok (handler (JsValue.vObj [])) ∧
      actionCall a handler input = actionCall a handler (JsValue.vObj []) := by
  intro ρ handler input
  constructor <;> simp [actionCall, hempty]

/-- C6, witness: the identity handler on an empty-schema action receives
the empty object whatever the raw input is. -/
theorem c6_witness :
    actionCall demoEmptyAction (fun v => v) (JsValue.vNum 42) =
      Except.ok (JsValue.vObj []) ∧
    actionCall demoEmptyAction (fun v => v) (JsValue.vNum 42) =
      actionCall demoEmptyAction (fun v => v) (JsValue.vObj []) :=
  c6_empty_schema_ignores_input demoEmptyAction rfl (fun v => v) (JsValue.vNum 42)

/-- C8, counterexample: on an index-bearing action, an input object whose
`index` field holds the string "five" makes `getIndexArg` return that
string value — neither a numeric index nor null — contradicting the claim
that a numeric index is returned if and only if the field is numeric and
null is returned otherwise. -/
theorem c8_counterexample :
    demoClickAction.getIndexArg (JsValue.vObj [("index", JsValue.vStr "five")]) =
      JsValue.vStr "five" ∧
    JsValue.vStr "five" ≠ JsValue.vNull :=
  ⟨rfl, by simp⟩

/-- C8, amended: `getIndexArg` is a pure function that returns the value
of the `index` field as-is (whatever its type, so in particular the
numeric index when the field is numeric) whenever the action is
index-bearing and the input is an object with an `index` field, and
returns null when the action is not index-bearing, when the field is
absent, or when the input is not an object. -/
theorem c8_get_index_arg_characterization (a : Action) :
    (a.hasIndex = false → ∀ input, a.getIndexArg input = JsValue.vNull) ∧
    (a.hasIndex = true → ∀ fields v, lookupField fields "index" = some v →
      a.getIndexArg (JsValue.vObj fields) = v) ∧
    (a.hasIndex = true → ∀ fields n, lookupField fields "index" = some (JsValue.vNum n) →
      a.getIndexArg (JsValue.vObj fields) = JsValue.vNum n) ∧
    (a.hasIndex = true → ∀ fields, lookupField fields "index" = none →
      a.getIndexArg (JsValue.vObj fields) = JsValue.vNull) ∧
    (a.hasIndex = true → ∀ input, (∀ fields, input ≠ JsValue.vObj fields) →
      a.getIndexArg input = JsValue.vNull) := by
  refine ⟨?_, ?_, ?_, ?_, ?_⟩
  · intro h input
    simp [Action.getIndexArg, h]
  · intro h fields v hf
    simp [Action.getIndexArg, h, hf]
  · intro h fields n hf
    simp [Action.getIndexArg, h, hf]
  · intro h fields hf
    simp [Action.getIndexArg, h, hf]
  · intro h input hin
    cases input with
    | vObj fields => exact absurd rfl (hin fields)
    | vUndefined => simp [Action.getIndexArg, h]
    | vNull => simp [Action.getIndexArg, h]
    | vBool b => simp [Action.getIndexArg, h]
    | vNum n => simp [Action.getIndexArg, h]
    | vStr s => simp [Action.getIndexArg, h]

/-- C8, witness: a numeric index field is returned as the numeric index; a
non-object input yields null. -/
theorem c8_witness :
    demoClickAction.getIndexArg (JsValue.vObj [("index", JsValue.vNum 7)]) =
      JsValue.vNum 7 ∧
    demoClickAction.getIndexArg (JsValue.vStr "x") = JsValue.vNull :=
  ⟨(c8_get_index_arg_characterization demoClickAction).2.2.1 rfl _ 7 rfl,
   (c8_get_index_arg_characterization demoClickAction).2.2.2.2 rfl _
     (fun _ h => JsValue.noConfusion h)⟩

/-- C9: when the element at the given index exists and is reported as a
file uploader, `click_element` dispatches no click and returns a result
with the file-upload-dialog message as `extractedContent`, `error` unset
and `includeInMemory` true. -/
theorem c9_file_uploader_branch (env : ClickEnv) (input : ClickInput) (node : ElementNode)
    (hfound : lookupIndex env.selectorMap input.index = some node)
    (hupl : env.isFileUploaderResult = true) :
    (∀ b n, Effect.clickElementNode b n ∉ (clickElementExec env input).1) ∧
    ∃ r, (clickElementExec env input).2 = Except.ok r ∧
      r.extractedContent = some (fileUploaderMsg input.index) ∧
      r.error = none ∧ r.includeInMemory = true := by
  constructor
  · intro b n
    simp [clickElementExec, hfound, hupl]
  · refine ⟨{ extractedContent := some (fileUploaderMsg input.index),
              includeInMemory := true }, ?_, rfl, rfl, rfl⟩
    simp [clickElementExec, hfound, hupl]

/-- C9, witness: the file-uploader branch at index 4. -/
theorem c9_witness :
    (∀ b n, Effect.clickElementNode b n ∉
      (clickElementExec { selectorMap := [(4, {})], isFileUploaderResult := true }
        { index := 4 }).1) ∧
    ∃ r, (clickElementExec { selectorMap := [(4, {})], isFileUploaderResult := true }
        { index := 4 }).2 = Except.ok r ∧
      r.extractedContent = some (fileUploaderMsg 4) ∧
      r.error = none ∧ r.includeInMemory = true :=
  c9_file_uploader_branch _ _ {} rfl rfl

/-- C10: for every falsy `tab_id` (absent, null, or the number 0), the
`close_tab` handler behaves exactly as with an absent `tab_id`: it first
looks up the current page and the only tab it closes is that page's tab
id — a zero `tab_id` is never passed to `closeTab` directly. -/
theorem c10_close_tab_falsy (env : CloseTabEnv) (t : TabIdArg)
    (h : t.truthy = false) :
    closeTabExec env t = closeTabExec env TabIdArg.absent ∧
    (closeTabExec env t).1.head? = some (Effect.getCurrentPage true) ∧
    ∀ n, Effect.closeTab n ∈ (closeTabExec env t).1 → n = env.currentPageTabId := by
  refine ⟨?_, ?_, ?_⟩
  · simp [closeTabExec, h, show TabIdArg.absent.truthy = false from rfl]
  · cases hc : env.closeResult <;> simp [closeTabExec, h, hc]
  · intro n hn
    cases hc : env.closeResult <;>
      simpa [closeTabExec, h, hc] using hn

/-- C10, witness: `tab_id = 0` closes the current page's tab (id 9), never
tab 0. -/
theorem c10_witness :
    closeTabExec { currentPageTabId := 9 } (TabIdArg.num 0) =
      closeTabExec { currentPageTabId := 9 } TabIdArg.absent ∧
    (closeTabExec { currentPageTabId := 9 } (TabIdArg.num 0)).1.head? =
      some (Effect.getCurrentPage true) ∧
    ∀ n, Effect.closeTab n ∈ (closeTabExec { currentPageTabId := 9 } (TabIdArg.num 0)).1 →
      n = (9 : Int) :=
  c10_close_tab_falsy { currentPageTabId := 9 } (TabIdArg.num 0) rfl

/-- Spreading a fresh key into an object shape appends it. -/
theorem jsObjAssign_fresh (shape : List (String × ZodType)) (k : String) (v : ZodType)
    (h : ∀ p ∈ shape, p.1 ≠ k) : jsObjAssign shape k v = shape ++ [(k, v)] := by
  have ha : shape.any (fun p => p.1 = k) = false := by
    rw [List.any_eq_false]
    intro p hp
    simpa using h p hp
  simp [jsObjAssign, ha]

/-- The extension fold of `buildDynamicActionSchema`, run over action names
that are fresh for the accumulated shape and mutually distinct, appends
one entry per action. -/
theorem foldExtendDynamic (actions : List Action) (shape : List (String × ZodType))
    (hfresh : ∀ a ∈ actions, ∀ p ∈ shape, p.1 ≠ a.schema.name)
    (hnd : (actions.map (fun a => a.schema.name)).Nodup) :
    actions.foldl
      (fun sch a =>
        zodExtend sch a.schema.name
          (ZodType.described (ZodType.nullable a.schema.schema) a.schema.description))
      (ZodType.obj shape)
      = ZodType.obj (shape ++ actions.map dynamicEntry) := by
  induction actions generalizing shape with
  | nil => simp
  | cons a as ih =>
    have hstep :
        zodExtend (ZodType.obj shape) a.schema.name
          (ZodType.described (ZodType.nullable a.schema.schema) a.schema.description)
          = ZodType.obj (shape ++ [dynamicEntry a]) := by
      have hz :
          zodExtend (ZodType.obj shape) a.schema.name
            (ZodType.described (ZodType.nullable a.schema.schema) a.schema.description)
            = ZodType.obj (jsObjAssign shape a.schema.name
                (ZodType.described (ZodType.nullable a.schema.schema) a.schema.description)) :=
        rfl
      rw [hz, jsObjAssign_fresh shape a.schema.name _
        (fun p hp => hfresh a (List.mem_cons_self a as) p hp)]
      rfl
    have hnotin : a.schema.name ∉ as.map (fun b => b.schema.name) :=
      (List.nodup_cons.mp hnd).1
    have hfresh2 : ∀ b ∈ as, ∀ p ∈ shape ++ [dynamicEntry a], p.1 ≠ b.schema.name := by
      intro b hb p hp
      rcases List.mem_append.mp hp with hps | hpe
      · exact hfresh b (List.mem_cons_of_mem a hb) p hps
      · have hpa : p = dynamicEntry a := by simpa using hpe
        subst hpa
        intro hEq
        apply hnotin
        rw [show a.schema.name = b.schema.name from hEq]
        exact List.mem_map_of_mem _ hb
    have hnd2 : (as.map (fun b => b.schema.name)).Nodup := (List.nodup_cons.mp hnd).2
    calc
      (a :: as).foldl
          (fun sch b =>
            zodExtend sch b.schema.name
              (ZodType.described (ZodType.nullable b.schema.schema) b.schema.description))
          (ZodType.obj shape)
        = as.foldl
            (fun sch b =>
              zodExtend sch b.schema.name
                (ZodType.described (ZodType.nullable b.schema.schema) b.schema.description))
            (ZodType.obj (shape ++ [dynamicEntry a])) := by
          rw [List.foldl_cons, hstep]
      _ = ZodType.obj ((shape ++ [dynamicEntry a]) ++ as.map dynamicEntry) :=
          ih (shape ++ [dynamicEntry a]) hfresh2 hnd2
      _ = ZodType.obj (shape ++ (a :: as).map dynamicEntry) := by
          simp

/-- Under distinct action names, the combined dynamic schema is the object
schema whose fields are exactly the per-action optional nullable described
entries, in registration order. -/
theorem buildDynamic_eq (actions : List Action)
    (hnd : (actions.map (fun a => a.schema.name)).Nodup) :
    buildDynamicActionSchema actions = ZodType.obj (actions.map dynamicField) := by
  unfold buildDynamicActionSchema
  rw [foldExtendDynamic actions [] (by simp) hnd]
  simp only [List.nil_append, zodMarkAllOptional, List.map_map]
  rfl

/-- Under distinct names, looking up an action's name among the combined
fields finds that action's own field. -/
theorem findDynamicField (actions : List Action) (a : Action)
    (ha : a ∈ actions) (hnd : (actions.map (fun b => b.schema.name)).Nodup) :
    (actions.map dynamicField).find? (fun p => p.1 = a.schema.name) =
      some (dynamicField a) := by
  induction actions with
  | nil => simp at ha
  | cons b bs ih =>
    rcases List.mem_cons.mp ha with h | h
    · subst h
      rw [List.map_cons, List.find?_cons_of_pos _ (by simp [dynamicField])]
    · have hnotin : b.schema.name ∉ bs.map (fun x => x.schema.name) :=
        (List.nodup_cons.mp hnd).1
      have hne : ¬ (dynamicField b).1 = a.schema.name := by
        intro hEq
        apply hnotin
        rw [show b.schema.name = a.schema.name from hEq]
        exact List.mem_map_of_mem _ h
      rw [List.map_cons, List.find?_cons_of_neg _ (by simpa using hne)]
      exact ih h (List.nodup_cons.mp hnd).2

/-- C7: for a list of N actions with distinct names,
`buildDynamicActionSchema` returns an object schema whose top-level fields
are exactly the N action names (so exactly N fields, one per action), and
the field for each action is both optional and nullable, whatever that
action's own parameter schema requires. -/
theorem c7_dynamic_schema_shape (actions : List Action)
    (hnd : (actions.map (fun a => a.schema.name)).Nodup) :
    topFieldNames (buildDynamicActionSchema actions) =
      actions.map (fun a => a.schema.name) ∧
    (topFieldNames (buildDynamicActionSchema actions)).length = actions.length ∧
    ∀ a ∈ actions, ∃ t,
      topFieldLookup (buildDynamicActionSchema actions) a.schema.name = some t ∧
      zodIsOptional t = true ∧ zodIsNullable t = true := by
  have hb := buildDynamic_eq actions hnd
  refine ⟨?_, ?_, ?_⟩
  · rw [hb]
    simp [topFieldNames, dynamicField, List.map_map]
  · rw [hb]
    simp [topFieldNames]
  · intro a ha
    rw [hb]
    refine ⟨(dynamicField a).2, ?_, rfl, rfl⟩
    simp only [topFieldLookup]
    rw [findDynamicField actions a ha hnd]
    rfl

/-- C7, witness: two concrete actions yield a two-field schema, each field
optional and nullable even though `demoIndexAction` has a required
sub-field. -/
theorem c7_witness :
    topFieldNames (buildDynamicActionSchema [demoIndexAction, demoEmptyAction]) =
      ["demo", "noop"] ∧
    (topFieldNames (buildDynamicActionSchema [demoIndexAction, demoEmptyAction])).length = 2 ∧
    ∃ t, topFieldLookup (buildDynamicActionSchema [demoIndexAction, demoEmptyAction])
        "demo" = some t ∧
      zodIsOptional t = true ∧ zodIsNullable t = true := by
  have h := c7_dynamic_schema_shape [demoIndexAction, demoEmptyAction]
    (by simp [demoIndexAction, demoEmptyAction])
  exact ⟨h.1, h.2.1, h.2.2 demoIndexAction (by simp)⟩

/-- The `done` handler always satisfies the event protocol. -/
theorem doneProtocol (text : String) : protocolOK (doneExec text).1 :=
  Or.inl rfl

/-- The `search_google` handler satisfies the event protocol whenever it
returns without throwing. -/
theorem searchGoogleProtocol (env : NavigateEnv) (q : String)
    (h : returnsOk (searchGoogleExec env q)) :
    protocolOK (searchGoogleExec env q).1 := by
  obtain ⟨nav⟩ := env
  cases nav with
  | error e =>
    obtain ⟨r, hr⟩ := h
    simp [searchGoogleExec] at hr
  | ok u => exact Or.inl rfl

/-- The `go_to_url` handler satisfies the event protocol whenever it
returns without throwing. -/
theorem goToUrlProtocol (env : NavigateEnv) (url : String)
    (h : returnsOk (goToUrlExec env url)) :
    protocolOK (goToUrlExec env url).1 := by
  obtain ⟨nav⟩ := env
  cases nav with
  | error e =>
    obtain ⟨r, hr⟩ := h
    simp [goToUrlExec] at hr
  | ok u => exact Or.inl rfl

/-- The `go_back` handler satisfies the event protocol whenever it returns
without throwing. -/
theorem goBackProtocol (env : GoBackEnv) (h : returnsOk (goBackExec env)) :
    protocolOK (goBackExec env).1 := by
  obtain ⟨res⟩ := env
  cases res with
  | error e =>
    obtain ⟨r, hr⟩ := h
    simp [goBackExec] at hr
  | ok u => exact Or.inl rfl

/-- Outside the file-uploader branch, the `click_element` handler
satisfies the event protocol whenever it returns without throwing. -/
theorem clickElementProtocol (env : ClickEnv) (input : ClickInput)
    (hupl : env.isFileUploaderResult = false)
    (h : returnsOk (clickElementExec env input)) :
    protocolOK (clickElementExec env input).1 := by
  obtain ⟨vision, smap, upl, click, init, cur⟩ := env
  cases upl with
  | true => simp at hupl
  | false =>
    cases hl : lookupIndex smap input.index with
    | none =>
      obtain ⟨r, hr⟩ := h
      simp [clickElementExec, hl] at hr
    | some node =>
      cases click with
      | error e => exact Or.inr (by simp [clickElementExec, hl, eventPhases])
      | ok u =>
        refine Or.inl ?_
        by_cases hlen : List.length init < List.length cur
        · simp [clickElementExec, hl, hlen, eventPhases]
          split <;> rfl
        · simp [clickElementExec, hl, hlen, eventPhases]

/-- The file-uploader branch of `click_element` emits ACT_START and no
terminal event. -/
theorem clickElementUploaderPhases (env : ClickEnv) (input : ClickInput) (node : ElementNode)
    (hfound : lookupIndex env.selectorMap input.index = some node)
    (hupl : env.isFileUploaderResult = true) :
    eventPhases (clickElementExec env input).1 = [ExecutionState.ACT_START] := by
  simp [clickElementExec, hfound, hupl, eventPhases]

/-- The `input_text` handler satisfies the event protocol whenever it
returns without throwing. -/
theorem inputTextProtocol (env : InputTextEnv) (input : InputTextInput)
    (h : returnsOk (inputTextExec env input)) :
    protocolOK (inputTextExec env input).1 := by
  obtain ⟨vision, smap, res⟩ := env
  cases hl : lookupIndex smap input.index with
  | none =>
    obtain ⟨r, hr⟩ := h
    simp [inputTextExec, hl] at hr
  | some node =>
    cases res with
    | error e =>
      obtain ⟨r, hr⟩ := h
      simp [inputTextExec, hl] at hr
    | ok u => exact Or.inl (by simp [inputTextExec, hl, eventPhases])

/-- The `switch_tab` handler satisfies the event protocol whenever it
returns without throwing. -/
theorem switchTabProtocol (env : SwitchTabEnv) (tabId : Int)
    (h : returnsOk (switchTabExec env tabId)) :
    protocolOK (switchTabExec env tabId).1 := by
  obtain ⟨res⟩ := env
  cases res with
  | error e =>
    obtain ⟨r, hr⟩ := h
    simp [switchTabExec] at hr
  | ok u => exact Or.inl rfl

/-- The `open_tab` handler satisfies the event protocol whenever it
returns without throwing. -/
theorem openTabProtocol (env : OpenTabEnv) (url : String)
    (h : returnsOk (openTabExec env url)) :
    protocolOK (openTabExec env url).1 := by
  obtain ⟨res⟩ := env
  cases res with
  | error e =>
    obtain ⟨r, hr⟩ := h
    simp [openTabExec] at hr
  | ok tid => exact Or.inl rfl

/-- The `close_tab` handler satisfies the event protocol whenever it
returns without throwing. -/
theorem closeTabProtocol (env : CloseTabEnv) (t : TabIdArg)
    (h : returnsOk (closeTabExec env t)) :
    protocolOK (closeTabExec env t).1 := by
  obtain ⟨ctid, res⟩ := env
  by_cases ht : t.truthy = true
  · cases res with
    | error e =>
      obtain ⟨r, hr⟩ := h
      simp [closeTabExec, ht] at hr
    | ok u => exact Or.inl (by simp [closeTabExec, ht, eventPhases])
  · cases res with
    | error e =>
      obtain ⟨r, hr⟩ := h
      simp [closeTabExec, ht] at hr
    | ok u => exact Or.inl (by simp [closeTabExec, ht, eventPhases])

/-- The `extract_content` handler emits no execution events on any run. -/
theorem extractContentNoEvents (env : ExtractEnv) (goal : String) :
    eventPhases (extractContentExec env goal).1 = [] := by
  obtain ⟨p, rd, llm⟩ := env
  cases p <;> cases rd <;> cases llm <;> rfl

/-- The `cache_content` handler always satisfies the event protocol. -/
theorem cacheContentProtocol (content : String) :
    protocolOK (cacheContentExec content).1 :=
  Or.inl rfl

/-- The `scroll_down` handler satisfies the event protocol whenever it
returns without throwing. -/
theorem scrollDownProtocol (env : PageOpEnv) (input : ScrollInput)
    (h : returnsOk (scrollDownExec env input)) :
    protocolOK (scrollDownExec env input).1 := by
  obtain ⟨res⟩ := env
  cases res with
  | error e =>
    obtain ⟨r, hr⟩ := h
    simp [scrollDownExec] at hr
  | ok u => exact Or.inl rfl

/-- The `scroll_up` handler satisfies the event protocol whenever it
returns without throwing. -/
theorem scrollUpProtocol (env : PageOpEnv) (input : ScrollInput)
    (h : returnsOk (scrollUpExec env input)) :
    protocolOK (scrollUpExec env input).1 := by
  obtain ⟨res⟩ := env
  cases res with
  | error e =>
    obtain ⟨r, hr⟩ := h
    simp [scrollUpExec] at hr
  | ok u => exact Or.inl rfl

/-- The `send_keys` handler satisfies the event protocol whenever it
returns without throwing. -/
theorem sendKeysProtocol (env : PageOpEnv) (input : SendKeysInput)
    (h : returnsOk (sendKeysExec env input)) :
    protocolOK (sendKeysExec env input).1 := by
  obtain ⟨res⟩ := env
  cases res with
  | error e =>
    obtain ⟨r, hr⟩ := h
    simp [sendKeysExec] at hr
  | ok u => exact Or.inl rfl

/-- The `scroll_to_text` handler satisfies the event protocol on every
run. -/
theorem scrollToTextProtocol (env : ScrollToTextEnv) (input : ScrollToTextInput) :
    protocolOK (scrollToTextExec env input).1 := by
  obtain ⟨res⟩ := env
  cases res with
  | error e => exact Or.inr rfl
  | ok scrolled => exact Or.inl rfl

/-- The `get_dropdown_options` handler satisfies the event protocol on
every run. -/
theorem getDropdownOptionsProtocol (env : GetDropdownEnv) (input : IndexInput) :
    protocolOK (getDropdownOptionsExec env input).1 := by
  obtain ⟨smap, res⟩ := env
  cases hl : lookupIndex smap input.index with
  | none => exact Or.inr (by simp [getDropdownOptionsExec, hl, eventPhases])
  | some node =>
    cases res with
    | error e => exact Or.inr (by simp [getDropdownOptionsExec, hl, eventPhases])
    | ok opts =>
      cases opts with
      | none => exact Or.inl (by simp [getDropdownOptionsExec, hl, eventPhases])
      | some l =>
        cases l with
        | nil => exact Or.inl (by simp [getDropdownOptionsExec, hl, eventPhases])
        | cons o os => exact Or.inl (by simp [getDropdownOptionsExec, hl, eventPhases])

/-- The `select_dropdown_option` handler satisfies the event protocol on
every run. -/
theorem selectDropdownOptionProtocol (env : SelectDropdownEnv) (input : SelectDropdownInput) :
    protocolOK (selectDropdownOptionExec env input).1 := by
  obtain ⟨smap, res⟩ := env
  cases hl : lookupIndex smap input.index with
  | none => exact Or.inr (by simp [selectDropdownOptionExec, hl, eventPhases])
  | some node =>
    rcases node with ⟨tag, txt⟩
    cases tag with
    | none =>
      exact Or.inr (by simp [selectDropdownOptionExec, hl, tagNameFalsy, eventPhases])
    | some t =>
      by_cases hemp : t = ""
      · exact Or.inr
          (by simp [selectDropdownOptionExec, hl, tagNameFalsy, hemp, eventPhases])
      · by_cases hsel : t.toLower = "select"
        · cases res with
          | ok s =>
            exact Or.inl
              (by simp [selectDropdownOptionExec, hl, tagNameFalsy, hemp, hsel, eventPhases])
          | error e =>
            exact Or.inr
              (by simp [selectDropdownOptionExec, hl, tagNameFalsy, hemp, hsel, eventPhases])
        · exact Or.inr
            (by simp [selectDropdownOptionExec, hl, tagNameFalsy, hemp, hsel, eventPhases])

/-- C1, counterexample: a fully successful run of the `extract_content`
handler returns without throwing yet emits no execution events at all — no
ACT_START and no terminal event — contradicting the claim that every
handler built by `buildDefaultActions`, including `extract_content`, emits
exactly one ACT_START and exactly one terminal event. -/
theorem c1_counterexample :
    (∃ r, (extractContentExec extractEnvOk "the goal").2 = Except.ok r) ∧
    eventPhases (extractContentExec extractEnvOk "the goal").1 = [] :=
  ⟨⟨_, rfl⟩, rfl⟩

/-- C1, amended: every handler built by `buildDefaultActions` emits
exactly one ACT_START followed by exactly one terminal event on every run
that returns without throwing, with two exceptions — the `extract_content`
handler emits no events at all on any run, and the file-uploader branch of
`click_element` emits ACT_START but no terminal event. -/
theorem c1_event_protocol :
    (∀ text, protocolOK (doneExec text).1) ∧
    (∀ env q, returnsOk (searchGoogleExec env q) →
      protocolOK (searchGoogleExec env q).1) ∧
    (∀ env url, returnsOk (goToUrlExec env url) →
      protocolOK (goToUrlExec env url).1) ∧
    (∀ env, returnsOk (goBackExec env) → protocolOK (goBackExec env).1) ∧
    (∀ env input, env.isFileUploaderResult = false →
      returnsOk (clickElementExec env input) →
      protocolOK (clickElementExec env input).1) ∧
    (∀ env input node, lookupIndex env.selectorMap input.index = some node →
      env.isFileUploaderResult = true →
      eventPhases (clickElementExec env input).1 = [ExecutionState.ACT_START]) ∧
    (∀ env input, returnsOk (inputTextExec env input) →
      protocolOK (inputTextExec env input).1) ∧
    (∀ env tabId, returnsOk (switchTabExec env tabId) →
      protocolOK (switchTabExec env tabId).1) ∧
    (∀ env url, returnsOk (openTabExec env url) →
      protocolOK (openTabExec env url).1) ∧
    (∀ env t, returnsOk (closeTabExec env t) → protocolOK (closeTabExec env t).1) ∧
    (∀ env goal, eventPhases (extractContentExec env goal).1 = []) ∧
    (∀ content, protocolOK (cacheContentExec content).1) ∧
    (∀ env input, returnsOk (scrollDownExec env input) →
      protocolOK (scrollDownExec env input).1) ∧
    (∀ env input, returnsOk (scrollUpExec env input) →
      protocolOK (scrollUpExec env input).1) ∧
    (∀ env input, returnsOk (sendKeysExec env input) →
      protocolOK (sendKeysExec env input).1) ∧
    (∀ env input, protocolOK (scrollToTextExec env input).1) ∧
    (∀ env input, protocolOK (getDropdownOptionsExec env input).1) ∧
    (∀ env input, protocolOK (selectDropdownOptionExec env input).1) :=
  ⟨doneProtocol, searchGoogleProtocol, goToUrlProtocol, goBackProtocol,
   clickElementProtocol, clickElementUploaderPhases, inputTextProtocol,
   switchTabProtocol, openTabProtocol, closeTabProtocol,
   extractContentNoEvents, cacheContentProtocol, scrollDownProtocol,
   scrollUpProtocol, sendKeysProtocol, scrollToTextProtocol,
   getDropdownOptionsProtocol, selectDropdownOptionProtocol⟩

/-- C1, witness: the protocol at concrete runs of `done` and
`search_google`, the empty event trace of a successful `extract_content`
run, and the lone ACT_START of a concrete file-uploader click. -/
theorem c1_witness :
    protocolOK (doneExec "finished").1 ∧
    protocolOK (searchGoogleExec { navigateResult := .ok () } "cats").1 ∧
    eventPhases (extractContentExec extractEnvOk "g").1 = [] ∧
    eventPhases (clickElementExec
      { selectorMap := [(4, {})], isFileUploaderResult := true } { index := 4 }).1 =
      [ExecutionState.ACT_START] :=
  ⟨c1_event_protocol.1 "finished",
   c1_event_protocol.2.1 _ "cats" ⟨_, rfl⟩,
   c1_event_protocol.2.2.2.2.2.2.2.2.2.2.1 _ "g",
   c1_event_protocol.2.2.2.2.2.1 _ _ {} rfl rfl⟩

end EveIntel
